import Mathlib

/-!
Verification of the multi-account email synchronization and dispatch engine
of this repository (the service in `server/services/multiAccountEmailService.ts`
together with the `/emails/send` route).

The embedding is shallow: the relevant TypeScript functions are translated
into pure Lean functions; the database is explicit state (`DB`); JavaScript
regular-expression passes are modelled character by character; external
collaborators whose implementation is not part of the analysed sources
(`EmailDeliverabilityService.checkSpamScore`, `sanitizeHtmlForEmail`, the
`EmailRateLimiter` internals, the SMTP transport) are abstracted as
parameters of an environment record, or, where a concrete behaviour is
needed, modelled from the design document (marked `Modelled from the spec:`).
-/

namespace OneHub

/-! ## Character and string helpers (JavaScript semantics) -/

/-- JavaScript `\w`: ASCII letter, digit or underscore. -/
def isWordChar (c : Char) : Bool :=
  c.isAlpha || c.isDigit || c = '_'

/-- Case-insensitive character comparison (regex flag `i`). -/
def lowerEq (a b : Char) : Bool := a.toLower = b.toLower

/-- Case-insensitive "is the pattern a prefix of the text". -/
def ciPrefixOf : List Char → List Char → Bool
  | [], _ => true
  | _ :: _, [] => false
  | p :: ps, c :: cs => lowerEq p c && ciPrefixOf ps cs

/-- Drop characters up to and including the first case-insensitive occurrence
of `pat`; `none` when `pat` does not occur. Models the lazy `[\s\S]*?pat`. -/
def dropThroughCI (pat : List Char) : List Char → Option (List Char)
  | [] => none
  | c :: cs =>
      if ciPrefixOf pat (c :: cs) then some (List.drop pat.length (c :: cs))
      else dropThroughCI pat cs

/-- JavaScript `String.prototype.trim`: drop whitespace from both ends. -/
def jsTrim (s : String) : String :=
  String.mk (((s.toList.dropWhile Char.isWhitespace).reverse.dropWhile
    Char.isWhitespace).reverse)

/-- JavaScript `x || d` for an optional string: `undefined`, `null` and the
empty string are falsy. -/
def orElseStr (o : Option String) (d : String) : String :=
  match o with
  | some s => if s = "" then d else s
  | none => d

/-- JavaScript `s || d` where `s` is a (non-nullable) string: `""` is falsy. -/
def strOr (s d : String) : String := if s = "" then d else s

/-! ## The mock sanitizer of `multiAccountEmailService.ts`

```ts
const sanitizeHtml = (html: string): string => {
    if (!html) return '';
    let sanitized = html.replace(/<script\b[^>]*>([\s\S]*?)<\/script>/gim, "");
    sanitized = sanitized.replace(/on\w+="[^"]*"/gim, "");
    return sanitized;
};
```
-/

/-- Try to match `<script\b[^>]*>[\s\S]*?<\/script>` (flags `i`) at the head
of the text; on success return the remainder after the match. -/
def matchScriptAt (cs : List Char) : Option (List Char) :=
  if ciPrefixOf ("<script".toList) cs then
    match List.drop 7 cs with
    | [] => none
    | c :: rest =>
        -- `\b` after the word `script`: the next character must not be a
        -- word character (at end-of-input the subsequent `>` fails anyway).
        if isWordChar c then none
        else
          -- `[^>]*>`: consume up to the first `>`, which must exist.
          match (c :: rest).dropWhile (fun ch => ch ≠ '>') with
          | [] => none
          | _ :: tl => dropThroughCI ("</script>".toList) tl
  else none

/-- One left-to-right global pass of the `script`-element regex, with fuel
(the input length suffices: every step consumes at least one character). -/
def stripScriptsFuel : Nat → List Char → List Char
  | 0, cs => cs
  | _ + 1, [] => []
  | fuel + 1, c :: cs =>
      match matchScriptAt (c :: cs) with
      | some rest => stripScriptsFuel fuel rest
      | none => c :: stripScriptsFuel fuel cs

def stripScripts (cs : List Char) : List Char :=
  stripScriptsFuel cs.length cs

/-- Try to match `on\w+="[^"]*"` (flags `i`) at the head of the text; on
success return the remainder after the match. -/
def matchOnAttrAt (cs : List Char) : Option (List Char) :=
  match cs with
  | o :: n :: rest =>
      if lowerEq o 'o' && lowerEq n 'n' then
        let wordRun := rest.takeWhile isWordChar
        if wordRun.isEmpty then none
        else
          match List.drop wordRun.length rest with
          | '=' :: '"' :: tail =>
              match tail.dropWhile (fun ch => ch ≠ '"') with
              | '"' :: tl => some tl
              | _ => none
          | _ => none
      else none
  | _ => none

/-- One left-to-right global pass of the event-handler-attribute regex. -/
def stripOnAttrsFuel : Nat → List Char → List Char
  | 0, cs => cs
  | _ + 1, [] => []
  | fuel + 1, c :: cs =>
      match matchOnAttrAt (c :: cs) with
      | some rest => stripOnAttrsFuel fuel rest
      | none => c :: stripOnAttrsFuel fuel cs

def stripOnAttrs (cs : List Char) : List Char :=
  stripOnAttrsFuel cs.length cs

/-- The mock `sanitizeHtml` of `multiAccountEmailService.ts`: empty input
short-circuits to `""`; otherwise the `script`-element pass is applied,
then the inline-event-handler pass. -/
def sanitizeHtml (html : String) : String :=
  if html = "" then ""
  else String.mk (stripOnAttrs (stripScripts html.toList))

/-! ## Data model

The Drizzle schema module (`@shared/schema`) is not among the analysed
sources; the record shapes below are taken from the insert/query sites in
`multiAccountEmailService.ts` and the `/emails/send` route, completed from
the design document's §3 data model.  In particular `Thread.externalThreadId`
is modelled from the spec: §3/§4.5 describe Threads as possibly "linked" to a
provider thread id, and `saveMessageWithRetry` queries
`emailThreads.externalThreadId`; no analysed code ever writes that column, so
every insert in this model leaves it `none`. -/

structure Account where
  id : String
  userId : String
  provider : String
  emailAddress : String
  isDefault : Bool
  isActive : Bool
  createdAt : Nat
  smtpHost : String
  smtpPort : Option Nat
  smtpSecure : Option Bool
  username : Option String
  password : String
  deriving Repr, DecidableEq

structure Thread where
  id : Nat
  subject : String
  participantEmails : List String
  lastMessageAt : Nat
  messageCount : Nat
  createdBy : String
  externalThreadId : Option String
  deriving Repr, DecidableEq

structure Message where
  id : Nat
  threadId : Nat
  emailAccountId : Option String
  externalMessageId : Option String
  fromEmail : String
  toEmails : List String
  ccEmails : List String
  bccEmails : List String
  subject : String
  htmlBody : String
  textBody : String
  messageType : String
  isRead : Bool
  sentAt : Nat
  createdBy : String
  deriving Repr, DecidableEq

/-- The database state: the three tables the email core touches, plus the
id sequences backing the generated primary keys of threads and messages. -/
structure DB where
  accounts : List Account
  threads : List Thread
  messages : List Message
  nextThreadId : Nat
  nextMessageId : Nat
  deriving Repr, DecidableEq

/-- Number of persisted messages referencing thread `tid`. -/
def DB.messagesInThread (db : DB) (tid : Nat) : Nat :=
  (db.messages.filter (fun m => m.threadId = tid)).length

/-- The `messageCount` of the (first) thread with id `tid`, when one exists. -/
def DB.threadCount (db : DB) (tid : Nat) : Option Nat :=
  (db.threads.find? (fun t => t.id = tid)).map Thread.messageCount

/-- The `lastMessageAt` of the (first) thread with id `tid`, when one exists. -/
def DB.threadLast (db : DB) (tid : Nat) : Option Nat :=
  (db.threads.find? (fun t => t.id = tid)).map Thread.lastMessageAt

/-- The provider message as normalized by the gateway adapters
(`ExternalMessage` in `multiAccountEmailService.ts`; `from` and `to` are
Lean tokens, rendered `fromAddr` and `toAddrs`). -/
structure ExternalMessage where
  externalMessageId : String
  externalThreadId : Option String
  subject : String
  fromAddr : String
  toAddrs : List String
  cc : Option (List String)
  bcc : Option (List String)
  htmlBody : String
  textBody : String
  date : Nat
  deriving Repr, DecidableEq

/-! ## `saveMessageWithRetry` (Thread Resolver & Deduplicator)

The retry loop of the source wraps transient database failures; database
operations in this embedding are total, so the loop body runs exactly once
and the model is the loop body's success path:

1. look up `externalMessageId`; if present return `false` (skipped);
2. if the message carries an `externalThreadId`, look for a thread whose
   `externalThreadId` column equals it;
3. reuse the found thread's id, else insert a fresh thread (note: the insert
   sets `messageCount: 0` and does not set `externalThreadId`);
4. insert the message with the sanitized html body and type `received`.

The returned `Bool` is the source's: `true` = newly persisted,
`false` = skipped duplicate. -/

def saveMessageWithRetry (msg : ExternalMessage) (account : Account)
    (userId : String) (db : DB) : Bool × DB :=
  let sanitizedHtmlBody := sanitizeHtml msg.htmlBody
  if db.messages.any (fun m =>
      m.externalMessageId = some msg.externalMessageId) then
    (false, db)
  else
    let existingThread : Option Thread :=
      match msg.externalThreadId with
      | some ext => db.threads.find? (fun t => t.externalThreadId = some ext)
      | none => none
    let (threadId, db1) :=
      match existingThread with
      | some t => (t.id, db)
      | none =>
          let newThread : Thread :=
            { id := db.nextThreadId
              subject := msg.subject
              participantEmails := msg.fromAddr :: msg.toAddrs
              lastMessageAt := msg.date
              messageCount := 0
              createdBy := userId
              externalThreadId := none }
          (db.nextThreadId,
           { db with
              threads := db.threads ++ [newThread]
              nextThreadId := db.nextThreadId + 1 })
    let newMessage : Message :=
      { id := db1.nextMessageId
        threadId := threadId
        emailAccountId := some account.id
        externalMessageId := some msg.externalMessageId
        fromEmail := msg.fromAddr
        toEmails := msg.toAddrs
        ccEmails := msg.cc.getD []
        bccEmails := msg.bcc.getD []
        subject := msg.subject
        htmlBody := sanitizedHtmlBody
        textBody := msg.textBody
        messageType := "received"
        isRead := false
        sentAt := msg.date
        createdBy := userId }
    (true,
     { db1 with
        messages := db1.messages ++ [newMessage]
        nextMessageId := db1.nextMessageId + 1 })

/-! ## Account resolution and dispatch (`MultiAccountEmailService`) -/

/-- Sort key of `orderBy: [desc(isDefault), desc(createdAt)]`:
lexicographic on (isDefault, createdAt). -/
def accountKey (a : Account) : Nat × Nat :=
  ((if a.isDefault then 1 else 0), a.createdAt)

/-- Strict order between sort keys (lexicographic). -/
def keyLt (x y : Nat × Nat) : Prop :=
  x.1 < y.1 ∨ (x.1 = y.1 ∧ x.2 < y.2)

instance (x y : Nat × Nat) : Decidable (keyLt x y) := by
  unfold keyLt; infer_instance

/-- Model of `getDefaultAccount`: `findFirst` over the user's accounts ordered by
`isDefault` descending then `createdAt` descending — the first maximal
element under `accountKey` (no `isActive` or `isDefault` filter; the
`catch` branch of the source returns `null` only on a database error, which
this total model does not have). -/
def pickBetter (best : Option Account) (a : Account) : Option Account :=
  match best with
  | none => some a
  | some b => if keyLt (accountKey b) (accountKey a) then some a else some b

def getDefaultAccount (userId : String) (db : DB) : Option Account :=
  (db.accounts.filter (fun a => a.userId = userId)).foldl pickBetter none

/-- Result record of `sendFromAccount` / the provider send helpers. -/
structure SendResult where
  success : Bool
  messageId : Option String
  error : Option String
  deriving Repr, DecidableEq

/-- Model of `sendFromAccount`: look the account up by id; a missing or inactive
account makes the `try` block throw, and the surrounding `catch` converts
the throw into `success: false` with the error message.  The actual
provider dispatch (Gmail/Outlook/SMTP) is a network call, abstracted by the
`transportOk`/`transportMessageId` parameters; an unsupported provider
string likewise throws and is caught. -/
def sendFromAccount (transportOk : Bool) (transportMessageId : String)
    (accountId : String) (db : DB) : SendResult :=
  match db.accounts.find? (fun a => a.id = accountId) with
  | none =>
      { success := false, messageId := none
        error := some "Account not found or inactive" }
  | some a =>
      if !a.isActive then
        { success := false, messageId := none
          error := some "Account not found or inactive" }
      else if a.provider = "gmail" ∨ a.provider = "outlook" ∨
          a.provider = "smtp" ∨ a.provider = "imap" then
        if transportOk then
          { success := true, messageId := some transportMessageId
            error := none }
        else
          { success := false, messageId := none
            error := some "Failed to send email" }
      else
        { success := false, messageId := none
          error := some ("Unsupported provider: " ++ a.provider) }

/-! ## The `/emails/send` route (Send Orchestrator)

`EmailDeliverabilityService.checkSpamScore`, `sanitizeHtmlForEmail`,
`validateRecipientEmail` and the `EmailRateLimiter` are imported by the
route from modules that are not among the analysed sources; the route model
takes them as opaque parameters in `SendEnv`.  The route's own control flow
— gate ordering, the spam-score thresholds, text-body derivation, thread
creation, message persistence, transport dispatch, quota recording and the
final thread update — is translated line by line from the route handler. -/

/-- Abstracted collaborators and request context of one `/emails/send`
invocation. -/
structure SendEnv where
  userId : String
  userEmail : String
  /-- Result of `EmailDeliverabilityService.validateRecipientEmail(e).isValid` -/
  validRecipient : String → Bool
  /-- Result of `EmailRateLimiter.canSendEmail(user, provider).allowed` -/
  rateAllowed : Bool
  /-- Result of `EmailDeliverabilityService.checkSpamScore(subject, html, text, from)`
  as `(score, issues)`; deterministic in its four arguments. -/
  checkSpamScore : String → String → String → String → Nat × List String
  /-- The function `EmailDeliverabilityService.sanitizeHtmlForEmail` -/
  sanitizeForEmail : String → String
  /-- outcome of the provider network call inside `sendFromAccount` -/
  transportOk : Bool
  transportMessageId : String
  /-- Value of `new Date()` during this request -/
  now : Nat

/-- Body of one `/emails/send` request (attachments omitted: no analysed
claim concerns them). -/
structure SendRequest where
  toAddrs : List String
  cc : List String
  bcc : List String
  subject : String
  htmlBody : String
  textBody : String
  threadId : Option Nat
  accountId : Option String
  deriving Repr, DecidableEq

/-- Where the route handler terminated. -/
inductive SendOutcome where
  /-- Status 400: invalid recipient addresses -/
  | invalidRecipients (bad : List String)
  /-- Status 400: no account configured (`NoAccountConfigured`) -/
  | noAccount
  /-- Status 429: rate limit exceeded -/
  | rateLimited
  /-- Status 400: spam score at least 7 (`DeliverabilityBlocked`), issues attached -/
  | spamBlocked (score : Nat) (issues : List String)
  /-- Status 400: derived text body below 10 characters (`InsufficientContent`) -/
  | insufficientContent
  /-- Status 201: message persisted; `sent` is `sendResult.success` -/
  | ok (sent : Bool) (messageId : Nat) (threadId : Nat)
  deriving Repr, DecidableEq

/-- Observable result of one route invocation: terminal outcome, final
database, and effect counters (number of `sendFromAccount` transport
attempts, number of `EmailRateLimiter.recordEmailSent` calls, whether the
moderate-spam warning was logged). -/
structure RouteResult where
  outcome : SendOutcome
  db : DB
  transportCalls : Nat
  recordSentCalls : Nat
  warned : Bool
  deriving Repr, DecidableEq

/-- Recipients failing `validateRecipientEmail`, in request order. -/
def invalidRecipientList (env : SendEnv) (req : SendRequest) : List String :=
  (req.toAddrs ++ req.cc ++ req.bcc).filter (fun e => !(env.validRecipient e))

/-- Account resolution of the route: an explicit `accountId` is looked up
with an ownership check; otherwise `getDefaultAccount`. -/
def resolveSendingAccount (env : SendEnv) (req : SendRequest) (db : DB) :
    Option Account :=
  match req.accountId with
  | some aid =>
      db.accounts.find? (fun a => a.id = aid && a.userId = env.userId)
  | none => getDefaultAccount env.userId db

/-- Model of `htmlBody.replace(/<[^>]*>/g, '')` — strip HTML tags, one global
left-to-right pass (an unterminated `<...` tail does not match and is
kept). -/
def stripTagsFuel : Nat → List Char → List Char
  | 0, cs => cs
  | _ + 1, [] => []
  | fuel + 1, c :: cs =>
      if c = '<' then
        match cs.dropWhile (fun ch => ch ≠ '>') with
        | '>' :: tl => stripTagsFuel fuel tl
        | _ => c :: stripTagsFuel fuel cs
      else c :: stripTagsFuel fuel cs

def stripTags (s : String) : String :=
  String.mk (stripTagsFuel s.toList.length s.toList)

/-- The text body the route uses:
`textBody || sanitizedHtmlBody.replace(/<[^>]*>/g, '').trim()`. -/
def finalTextBodyOf (env : SendEnv) (req : SendRequest) : String :=
  strOr req.textBody (jsTrim (stripTags (env.sanitizeForEmail req.htmlBody)))

/-- The `from` address used for the spam check and the persisted row:
`sendingAccount.emailAddress || req.user!.email`. -/
def fromEmailOf (env : SendEnv) (acct : Account) : String :=
  strOr acct.emailAddress env.userEmail

/-- The route handler of `POST /emails/send`, step by step:
recipient validation → account resolution → rate-limit gate → spam-score
gate (block at ≥ 7, warn at ≥ 5) → sanitize → text-body gate (< 10) →
thread reuse-or-create → message insert (`messageType: 'sent'`) →
`sendFromAccount` → `recordEmailSent` only on `sendResult.success` →
thread `messageCount + 1` / `lastMessageAt` update (success or not). -/
def emailsSend (env : SendEnv) (req : SendRequest) (db : DB) : RouteResult :=
  let invalid := invalidRecipientList env req
  if invalid ≠ [] then
    ⟨.invalidRecipients invalid, db, 0, 0, false⟩
  else
    match resolveSendingAccount env req db with
    | none => ⟨.noAccount, db, 0, 0, false⟩
    | some acct =>
      if !env.rateAllowed then
        ⟨.rateLimited, db, 0, 0, false⟩
      else
        let fromEmail := fromEmailOf env acct
        let spam := env.checkSpamScore req.subject req.htmlBody req.textBody
          fromEmail
        if spam.1 ≥ 7 then
          ⟨.spamBlocked spam.1 spam.2, db, 0, 0, false⟩
        else
          let warned := decide (spam.1 ≥ 5)
          let sanitizedHtmlBody := env.sanitizeForEmail req.htmlBody
          let finalTextBody := finalTextBodyOf env req
          if finalTextBody = "" ∨ finalTextBody.length < 10 then
            ⟨.insufficientContent, db, 0, 0, warned⟩
          else
            let (finalThreadId, db1) :=
              match req.threadId with
              | some tid => (tid, db)
              | none =>
                  let newThread : Thread :=
                    { id := db.nextThreadId
                      subject := req.subject
                      participantEmails :=
                        strOr acct.emailAddress env.userEmail :: req.toAddrs
                      lastMessageAt := env.now
                      messageCount := 0
                      createdBy := env.userId
                      externalThreadId := none }
                  (db.nextThreadId,
                   { db with
                      threads := db.threads ++ [newThread]
                      nextThreadId := db.nextThreadId + 1 })
            let newMessage : Message :=
              { id := db1.nextMessageId
                threadId := finalThreadId
                emailAccountId := some acct.id
                externalMessageId := none
                fromEmail := strOr acct.emailAddress env.userEmail
                toEmails := req.toAddrs
                ccEmails := req.cc
                bccEmails := req.bcc
                subject := req.subject
                htmlBody := sanitizedHtmlBody
                textBody := finalTextBody
                messageType := "sent"
                isRead := false
                sentAt := env.now
                createdBy := env.userId }
            let db2 :=
              { db1 with
                  messages := db1.messages ++ [newMessage]
                  nextMessageId := db1.nextMessageId + 1 }
            let sendResult :=
              sendFromAccount env.transportOk env.transportMessageId acct.id db2
            let recordCalls := if sendResult.success then 1 else 0
            let db3 :=
              { db2 with
                  threads := db2.threads.map (fun t =>
                    if t.id = finalThreadId then
                      { t with
                          lastMessageAt := env.now
                          messageCount := t.messageCount + 1 }
                    else t) }
            ⟨.ok sendResult.success db1.nextMessageId finalThreadId,
             db3, 1, recordCalls, warned⟩

/-! ## The transporter cache (`getOrCreateTransporter`)

`transporterCache` is a module-level `Map<string, Transporter>` keyed by
`account.id`.  `nodemailer.createTransport` only builds a configuration
object; the network is touched by `transporter.verify()`, abstracted as the
boolean `verifyOk`. -/

/-- The configuration captured by `nodemailer.createTransport` in
`getOrCreateTransporter` (`port: smtpPort || 587`,
`secure: smtpSecure || false`, `user: username || emailAddress`). -/
structure Transporter where
  host : String
  port : Nat
  secure : Bool
  authUser : String
  authPass : String
  deriving Repr, DecidableEq

/-- JavaScript `x || d` for an optional number (`0`, `null`, `undefined`
falsy). -/
def orElseNat (o : Option Nat) (d : Nat) : Nat :=
  match o with
  | some n => if n = 0 then d else n
  | none => d

/-- JavaScript `x || false` for an optional boolean. -/
def orElseBool (o : Option Bool) (d : Bool) : Bool :=
  match o with
  | some b => b || d
  | none => d

def buildTransporter (account : Account) : Transporter :=
  { host := account.smtpHost
    port := orElseNat account.smtpPort 587
    secure := orElseBool account.smtpSecure false
    authUser := orElseStr account.username account.emailAddress
    authPass := account.password }

/-- The `transporterCache` map: association list keyed by account id
(later `set`s are consed in front, so `lookup` sees the latest entry). -/
abbrev CacheState := List (String × Transporter)

def cacheLookup (st : CacheState) (key : String) : Option Transporter :=
  match st.find? (fun e => e.1 = key) with
  | some e => some e.2
  | none => none

def cacheSet (st : CacheState) (key : String) (t : Transporter) : CacheState :=
  (key, t) :: st

/-- Result of one `getOrCreateTransporter` call: the returned transporter or
the thrown error message, the cache afterwards, and effect counters (how
many transporters were constructed, how many `verify` calls reached the
provider). -/
structure CacheCallResult where
  result : Except String Transporter
  cache : CacheState
  constructions : Nat
  verifyCalls : Nat

/-- Model of `getOrCreateTransporter`, run to completion in isolation: cache hit
returns the cached transporter; on a miss a transporter is constructed and
verified, cached only when verification succeeds, and
`'SMTP connection verification failed.'` is thrown otherwise. -/
def getOrCreateTransporter (verifyOk : Bool) (account : Account)
    (st : CacheState) : CacheCallResult :=
  match cacheLookup st account.id with
  | some t => ⟨.ok t, st, 0, 0⟩
  | none =>
      let t := buildTransporter account
      if verifyOk then ⟨.ok t, cacheSet st account.id t, 1, 1⟩
      else ⟨.error "SMTP connection verification failed.", st, 1, 1⟩

/-! ### Interleaving semantics for concurrent `getOrCreateTransporter` calls

The source function is `async`; its only suspension point is
`await transporter.verify()`.  Each call therefore executes as two atomic
segments on the shared cache:

* segment 1 (from entry to issuing `verify`): check the cache; on a hit the
  call completes with the cached transporter; on a miss construct a
  transporter and start its verification, then suspend;
* segment 2 (after `verify` settles): on success `set` the cache and return
  the transporter; on failure throw, leaving the cache unchanged.

A schedule is the list of call indices in the order their ready segments are
run; running a segment of a completed call is a no-op. -/

inductive CallPhase where
  /-- not yet entered its first synchronous segment -/
  | start
  /-- suspended at `await transporter.verify()` on transporter `t` -/
  | awaitingVerify (t : Transporter)
  | done (r : Except String Transporter)
  deriving Repr

structure ConcState where
  cache : CacheState
  calls : List CallPhase
  constructions : Nat
  verifyCalls : Nat

/-- Run the next ready segment of call `i` (all calls are for the same
`account`; `verifyOk` is the provider's answer to every verification). -/
def concStep (verifyOk : Bool) (account : Account) (s : ConcState)
    (i : Nat) : ConcState :=
  match s.calls.get? i with
  | none => s
  | some .start =>
      match cacheLookup s.cache account.id with
      | some t => { s with calls := s.calls.set i (.done (.ok t)) }
      | none =>
          let t := buildTransporter account
          { s with
              calls := s.calls.set i (.awaitingVerify t)
              constructions := s.constructions + 1
              verifyCalls := s.verifyCalls + 1 }
  | some (.awaitingVerify t) =>
      if verifyOk then
        { s with
            cache := cacheSet s.cache account.id t
            calls := s.calls.set i (.done (.ok t)) }
      else
        { s with
            calls :=
              s.calls.set i
                (.done (.error "SMTP connection verification failed.")) }
  | some (.done _) => s

def concRun (verifyOk : Bool) (account : Account) (s : ConcState)
    (schedule : List Nat) : ConcState :=
  schedule.foldl (concStep verifyOk account) s

/-- State of `n` concurrent calls against an initially given cache. -/
def concInit (cache : CacheState) (n : Nat) : ConcState :=
  ⟨cache, List.replicate n .start, 0, 0⟩

/-! ## Spec-modelled outbound sanitizer -/

/-- Try to match a complete `style` element at the head of the text,
analogous to `matchScriptAt`. -/
def matchStyleAt (cs : List Char) : Option (List Char) :=
  if ciPrefixOf ("<style".toList) cs then
    match List.drop 6 cs with
    | [] => none
    | c :: rest =>
        if isWordChar c then none
        else
          match (c :: rest).dropWhile (fun ch => ch ≠ '>') with
          | [] => none
          | _ :: tl => dropThroughCI ("</style>".toList) tl
  else none

def stripStylesFuel : Nat → List Char → List Char
  | 0, cs => cs
  | _ + 1, [] => []
  | fuel + 1, c :: cs =>
      match matchStyleAt (c :: cs) with
      | some rest => stripStylesFuel fuel rest
      | none => c :: stripStylesFuel fuel cs

def stripStyles (cs : List Char) : List Char :=
  stripStylesFuel cs.length cs

/-- Modelled from the spec: `EmailDeliverabilityService.sanitizeHtmlForEmail`
is imported by the `/emails/send` route from a module that is not among the
analysed sources.  §4.4 specifies `sanitizeHtml(html) → html'` as "strips
script/style tags and inline event handlers", so the model removes complete
`script` elements, complete `style` elements, and inline event-handler
attributes; markup such as `<p>hi</p>` passes through unchanged. -/
def sanitizeHtmlForEmailSpec (html : String) : String :=
  String.mk (stripOnAttrs (stripStyles (stripScripts html.toList)))

/-! ## Concrete fixtures for witnesses and counterexamples -/

def acctSmtp : Account :=
  { id := "acc1", userId := "u1", provider := "smtp"
    emailAddress := "me@corp.example", isDefault := true, isActive := true
    createdAt := 10, smtpHost := "smtp.corp.example", smtpPort := some 587
    smtpSecure := some true, username := none, password := "pw" }

def acctInactive : Account :=
  { id := "acc2", userId := "u2", provider := "smtp"
    emailAddress := "old@corp.example", isDefault := false, isActive := false
    createdAt := 5, smtpHost := "smtp.corp.example", smtpPort := none
    smtpSecure := none, username := some "old", password := "pw2" }

def dbEmpty : DB := ⟨[], [], [], 1, 1⟩

def dbOneAcct : DB := ⟨[acctSmtp], [], [], 1, 1⟩

def dbInactive : DB := ⟨[acctInactive], [], [], 1, 1⟩

/-- First inbound message of provider thread `T1`. -/
def msgT1a : ExternalMessage :=
  { externalMessageId := "m1", externalThreadId := some "T1"
    subject := "hello", fromAddr := "alice@ext.example"
    toAddrs := ["me@corp.example"], cc := none, bcc := none
    htmlBody := "<b>hi</b>", textBody := "hi", date := 100 }

/-- Second inbound message of the same provider thread `T1`. -/
def msgT1b : ExternalMessage :=
  { msgT1a with externalMessageId := "m2", date := 101 }

/-- The database after syncing `msgT1a` into an empty database. -/
def dbAfterM1 : DB := (saveMessageWithRetry msgT1a acctSmtp "u1" dbEmpty).2

/-- Environment in which every gate passes (spam score 0, rate limit open,
transport accepts). -/
def envOk : SendEnv :=
  { userId := "u1", userEmail := "user@corp.example"
    validRecipient := fun _ => true, rateAllowed := true
    checkSpamScore := fun _ _ _ _ => (0, [])
    sanitizeForEmail := fun h => h
    transportOk := true, transportMessageId := "prov-1", now := 500 }

/-- Same environment but the deliverability guard reports score 7. -/
def envSpam7 : SendEnv :=
  { envOk with checkSpamScore := fun _ _ _ _ => (7, ["spam trigger words"]) }

/-- Same environment but the deliverability guard reports score 4. -/
def envSpam4 : SendEnv :=
  { envOk with checkSpamScore := fun _ _ _ _ => (4, ["minor"]) }

/-- Same environment but the deliverability guard reports score 5. -/
def envSpam5 : SendEnv :=
  { envOk with checkSpamScore := fun _ _ _ _ => (5, ["moderate"]) }

/-- Environment of the §8 scenario: the spec-modelled outbound sanitizer. -/
def envScenario : SendEnv :=
  { envOk with sanitizeForEmail := sanitizeHtmlForEmailSpec }

/-- Environment of a user whose only account is inactive. -/
def envU2 : SendEnv := { envOk with userId := "u2" }

/-- Same environment as `envOk` but the provider rejects the send. -/
def envFail : SendEnv := { envOk with transportOk := false }

/-- A request that passes every gate when sent from `acctSmtp`. -/
def reqBasic : SendRequest :=
  { toAddrs := ["bob@ext.example"], cc := [], bcc := []
    subject := "status", htmlBody := "<p>quarterly report attached</p>"
    textBody := "quarterly report attached"
    threadId := none, accountId := some "acc1" }

/-- The §8 scenario request: empty `textBody`, `htmlBody = "<p>hi</p>"`. -/
def reqHi : SendRequest :=
  { reqBasic with htmlBody := "<p>hi</p>", textBody := "" }

/-- Request `reqBasic` without an explicit account, so the route resolves the
user's default account. -/
def reqNoAcct : SendRequest := { reqBasic with accountId := none }

/-! # Theorems -/

/-- C1: for every inbound `ExternalMessage` whose `externalMessageId` is
already present in storage, `saveMessageWithRetry` performs no insert and
returns the skipped outcome `false` — the database is returned unchanged,
so re-syncing the same provider message is a no-op, never a duplicate
insert and never an error. -/
theorem c1_save_skips_known_externalMessageId
    (msg : ExternalMessage) (account : Account) (userId : String) (db : DB)
    (h : ∃ m ∈ db.messages,
      m.externalMessageId = some msg.externalMessageId) :
    saveMessageWithRetry msg account userId db = (false, db) := by
  obtain ⟨m, hm, he⟩ := h
  have hany : db.messages.any
      (fun m => m.externalMessageId = some msg.externalMessageId) = true := by
    rw [List.any_eq_true]
    exact ⟨m, hm, by simp [he]⟩
  simp [saveMessageWithRetry, hany]

/-- C1 witness: after syncing `msgT1a` into an empty database, syncing a
message with the same `externalMessageId` again is skipped. -/
theorem c1_save_skips_known_externalMessageId_witness :
    (∃ m ∈ dbAfterM1.messages,
      m.externalMessageId = some msgT1a.externalMessageId) ∧
    saveMessageWithRetry msgT1a acctSmtp "u1" dbAfterM1 =
      (false, dbAfterM1) := by
  have h : ∃ m ∈ dbAfterM1.messages,
      m.externalMessageId = some msgT1a.externalMessageId := by decide
  exact ⟨h, c1_save_skips_known_externalMessageId msgT1a acctSmtp "u1"
    dbAfterM1 h⟩

/-- C2 (evaluation at the failing input): two inbound messages with the
same `externalThreadId = "T1"` and distinct `externalMessageId`s, synced
into an empty database, yield two threads (not one), attach to different
threads, and both threads keep `messageCount = 0` — because the thread
created for the first message is inserted without its `externalThreadId`,
so the second lookup never matches, and the sync path never increments
`messageCount`. -/
theorem c2_second_message_creates_second_thread :
    ((saveMessageWithRetry msgT1b acctSmtp "u1" dbAfterM1).2.threads.length
      = 2) ∧
    ((saveMessageWithRetry msgT1b acctSmtp "u1" dbAfterM1).2.threads.map
      Thread.messageCount = [0, 0]) ∧
    ((saveMessageWithRetry msgT1b acctSmtp "u1" dbAfterM1).2.messages.map
      Message.threadId = [1, 2]) ∧
    ((saveMessageWithRetry msgT1b acctSmtp "u1" dbAfterM1).2.threads.map
      Thread.externalThreadId = [none, none]) := by
  decide

/-- C3 counterexample: a single inbound sync insert into an empty database
leaves the created thread's `messageCount` at 0 while one persisted
message references it — the sync insert does not increment the owning
thread's `messageCount`. -/
theorem c3_sync_insert_breaks_count_invariant :
    dbAfterM1.threadCount 1 = some 0 ∧
    dbAfterM1.messagesInThread 1 = 1 := by
  decide

/-- C6 counterexample: `sanitizeHtml` does not strip `style` tags — a
`style` element passes through unchanged, refuting "strips script tags,
style tags, and inline event-handler attributes" as stated. -/
theorem c6_style_tags_not_stripped :
    sanitizeHtml "<style>body color red</style>spam text"
      = "<style>body color red</style>spam text" := by
  decide

/-- C9 counterexample: two concurrent `getOrCreateTransporter` calls for
the same account with an empty cache, interleaved so that both run their
cache-check segment before either verification completes (schedule
`[0, 1, 0, 1]`), construct two transporters and issue two `verify` calls —
refuting "exactly one connection is constructed and exactly one verify
call reaches the provider". -/
theorem c9_interleaved_calls_verify_twice :
    (concRun true acctSmtp (concInit [] 2) [0, 1, 0, 1]).verifyCalls = 2 ∧
    (concRun true acctSmtp (concInit [] 2) [0, 1, 0, 1]).constructions
      = 2 := by
  decide

/-- C9 amended: the transporter cache deduplicates connection setup only
across sequential calls — when one call completes its (successful)
verification before the other checks the cache (schedule `[0, 0, 1, 1]`),
the second call hits the cache and exactly one transporter is constructed
and verified; but there is no single-flight guard, so two calls whose
cache-check segments both run before either verification completes
(schedule `[0, 1, 0, 1]`) each construct a transporter and each issue a
`verify` call. -/
theorem c9_cache_dedups_only_sequential_calls (account : Account) :
    ((concRun true account (concInit [] 2) [0, 0, 1, 1]).verifyCalls = 1 ∧
     (concRun true account (concInit [] 2) [0, 0, 1, 1]).constructions = 1) ∧
    ((concRun true account (concInit [] 2) [0, 1, 0, 1]).verifyCalls = 2 ∧
     (concRun true account (concInit [] 2) [0, 1, 0, 1]).constructions
       = 2) := by
  refine ⟨⟨?_, ?_⟩, ⟨?_, ?_⟩⟩ <;>
    simp [concRun, concStep, concInit, cacheLookup, cacheSet, List.find?]

/-- C8: `getOrCreateTransporter` returns the cached transporter on a cache
hit (no construction, no `verify`); on a miss it constructs the
transporter, verifies it, caches it exactly when verification succeeds,
and throws `'SMTP connection verification failed.'` with the cache left
unchanged when it fails — so no entry is ever cached without having
passed verification. -/
theorem c8_getOrCreateTransporter_verifies_before_caching
    (verifyOk : Bool) (account : Account) (st : CacheState) :
    (∀ t, cacheLookup st account.id = some t →
      getOrCreateTransporter verifyOk account st = ⟨.ok t, st, 0, 0⟩) ∧
    (cacheLookup st account.id = none → verifyOk = true →
      getOrCreateTransporter verifyOk account st =
        ⟨.ok (buildTransporter account),
         cacheSet st account.id (buildTransporter account), 1, 1⟩) ∧
    (cacheLookup st account.id = none → verifyOk = false →
      getOrCreateTransporter verifyOk account st =
        ⟨.error "SMTP connection verification failed.", st, 1, 1⟩) ∧
    (∀ k t, (k, t) ∈ (getOrCreateTransporter verifyOk account st).cache →
      (k, t) ∈ st ∨ verifyOk = true) := by
  refine ⟨?_, ?_, ?_, ?_⟩
  · intro t ht
    simp [getOrCreateTransporter, ht]
  · intro hmiss hok
    simp [getOrCreateTransporter, hmiss, hok]
  · intro hmiss hfail
    simp [getOrCreateTransporter, hmiss, hfail]
  · intro k t hmem
    unfold getOrCreateTransporter at hmem
    cases hl : cacheLookup st account.id with
    | some t0 =>
        rw [hl] at hmem
        exact Or.inl hmem
    | none =>
        rw [hl] at hmem
        cases hv : verifyOk with
        | true => exact Or.inr rfl
        | false =>
            rw [hv] at hmem
            simp at hmem
            exact Or.inl hmem

/-- C8 witness: with an empty cache and a succeeding verification, the
transporter for `acctSmtp` is constructed, verified once and cached. -/
theorem c8_getOrCreateTransporter_witness :
    cacheLookup [] acctSmtp.id = none ∧
    getOrCreateTransporter true acctSmtp [] =
      ⟨.ok (buildTransporter acctSmtp),
       cacheSet [] acctSmtp.id (buildTransporter acctSmtp), 1, 1⟩ := by
  have h : cacheLookup [] acctSmtp.id = none := by decide
  exact ⟨h,
    (c8_getOrCreateTransporter_verifies_before_caching true acctSmtp
      []).2.1 h rfl⟩

/-- C6 amended: `sanitizeHtml` strips complete `script` elements and
double-quoted inline event-handler attributes but not `style` tags, and
the sanitized result (not the raw HTML) is what every inbound sync insert
persists as the message's `htmlBody`. -/
theorem c6_sanitized_html_is_persisted :
    (∀ (msg : ExternalMessage) (account : Account) (userId : String)
      (db : DB),
      (saveMessageWithRetry msg account userId db).1 = true →
      ∃ m, (saveMessageWithRetry msg account userId db).2.messages =
          db.messages ++ [m] ∧
        m.htmlBody = sanitizeHtml msg.htmlBody) ∧
    sanitizeHtml "a<script>alert(1)</script>b" = "ab" ∧
    sanitizeHtml "<div onclick=\"steal()\">hi</div>" = "<div >hi</div>" ∧
    sanitizeHtml "<style>body color red</style>"
      = "<style>body color red</style>" := by
  refine ⟨?_, by decide, by decide, by decide⟩
  intro msg account userId db hsaved
  unfold saveMessageWithRetry at hsaved ⊢
  split at hsaved
  · simp at hsaved
  · rename_i hc
    rw [if_neg hc]
    split
    · rename_i s hs
      cases hF : db.threads.find? (fun t => t.externalThreadId = some s) with
      | none => exact ⟨_, rfl, rfl⟩
      | some t => exact ⟨_, rfl, rfl⟩
    · exact ⟨_, rfl, rfl⟩

/-- C6 amended witness: the inbound save of `msgT1a` into the empty
database persists `sanitizeHtml msgT1a.htmlBody`. -/
theorem c6_sanitized_html_is_persisted_witness :
    (saveMessageWithRetry msgT1a acctSmtp "u1" dbEmpty).1 = true ∧
    ∃ m, (saveMessageWithRetry msgT1a acctSmtp "u1" dbEmpty).2.messages =
        dbEmpty.messages ++ [m] ∧
      m.htmlBody = sanitizeHtml msgT1a.htmlBody := by
  have h : (saveMessageWithRetry msgT1a acctSmtp "u1" dbEmpty).1 = true := by
    decide
  exact ⟨h, c6_sanitized_html_is_persisted.1 msgT1a acctSmtp "u1" dbEmpty h⟩

/-- C4: once a send request has passed recipient validation, account
resolution and the rate-limit gate, the deliverability policy of the route
is: score ≥ 7 hard-blocks the send with the issues attached, leaving the
database untouched and making no transport call and no quota recording;
score < 7 is never blocked by the deliverability gate, and the moderate
band is flagged exactly when 5 ≤ score (the `warned` effect), rather than
blocked. -/
theorem c4_spam_score_policy
    (env : SendEnv) (req : SendRequest) (db : DB) (acct : Account)
    (sc : Nat) (iss : List String)
    (hinv : invalidRecipientList env req = [])
    (hacct : resolveSendingAccount env req db = some acct)
    (hrate : env.rateAllowed = true)
    (hspam : env.checkSpamScore req.subject req.htmlBody req.textBody
      (fromEmailOf env acct) = (sc, iss)) :
    (7 ≤ sc →
      (emailsSend env req db).outcome = .spamBlocked sc iss ∧
      (emailsSend env req db).db = db ∧
      (emailsSend env req db).transportCalls = 0 ∧
      (emailsSend env req db).recordSentCalls = 0) ∧
    (sc < 7 →
      (∀ s i, (emailsSend env req db).outcome ≠ .spamBlocked s i) ∧
      (emailsSend env req db).warned = decide (5 ≤ sc)) := by
  constructor
  · intro h7
    simp [emailsSend, hinv, hacct, hrate, hspam, h7]
  · intro h7
    have h7' : ¬ 7 ≤ sc := not_le.mpr h7
    simp [emailsSend, hinv, hacct, hrate, hspam, h7']
    repeat' split
    all_goals simp

/-- C4 witness: with score 7 the send is blocked with the issues attached
and no transport call happens; with score 4 the deliverability gate does
not block; with score 5 the moderate-band warning is flagged. -/
theorem c4_spam_score_policy_witness :
    (emailsSend envSpam7 reqBasic dbOneAcct).outcome
      = .spamBlocked 7 ["spam trigger words"] ∧
    (emailsSend envSpam7 reqBasic dbOneAcct).transportCalls = 0 ∧
    (∀ s i,
      (emailsSend envSpam4 reqBasic dbOneAcct).outcome ≠ .spamBlocked s i) ∧
    (emailsSend envSpam5 reqBasic dbOneAcct).warned = true := by
  refine ⟨?_, ?_, ?_, ?_⟩
  · exact ((c4_spam_score_policy envSpam7 reqBasic dbOneAcct acctSmtp 7
      ["spam trigger words"] (by decide) (by decide) rfl rfl).1
      (by decide)).1
  · exact ((c4_spam_score_policy envSpam7 reqBasic dbOneAcct acctSmtp 7
      ["spam trigger words"] (by decide) (by decide) rfl rfl).1
      (by decide)).2.2.1
  · exact ((c4_spam_score_policy envSpam4 reqBasic dbOneAcct acctSmtp 4
      ["minor"] (by decide) (by decide) rfl rfl).2 (by decide)).1
  · have h := ((c4_spam_score_policy envSpam5 reqBasic dbOneAcct acctSmtp 5
      ["moderate"] (by decide) (by decide) rfl rfl).2 (by decide)).2
    simpa using h

/-- C7: the rate limiter's `recordEmailSent` is invoked at most once per
`/emails/send` request, exactly when the provider confirmed the send
(`sendResult.success`, surfaced as the `ok true` outcome); whenever an
earlier gate rejects (no transport call) the quota counters are left
unchanged. -/
theorem c7_record_sent_iff_confirmed
    (env : SendEnv) (req : SendRequest) (db : DB) :
    (emailsSend env req db).recordSentCalls ≤ 1 ∧
    ((emailsSend env req db).recordSentCalls = 1 ↔
      ∃ mid tid, (emailsSend env req db).outcome = .ok true mid tid) ∧
    ((emailsSend env req db).transportCalls = 0 →
      (emailsSend env req db).recordSentCalls = 0) := by
  by_cases hI : invalidRecipientList env req = []
  · rcases hA : resolveSendingAccount env req db with _ | acct
    · simp [emailsSend, hI, hA]
    · cases hR : env.rateAllowed
      · simp [emailsSend, hI, hA, hR]
      · rcases hS : env.checkSpamScore req.subject req.htmlBody req.textBody
          (fromEmailOf env acct) with ⟨sc, iss⟩
        by_cases h7 : 7 ≤ sc
        · simp [emailsSend, hI, hA, hR, hS, h7]
        · by_cases hT : finalTextBodyOf env req = "" ∨
              (finalTextBodyOf env req).length < 10
          · simp [emailsSend, hI, hA, hR, hS, h7, hT]
          · rcases hTh : req.threadId with _ | tid
            all_goals
              simp [emailsSend, hI, hA, hR, hS, h7, hT, hTh]
            all_goals split <;> simp_all
  · simp [emailsSend, hI]

/-- C7 witness: a confirmed send consumes exactly one quota recording, a
transport failure consumes none. -/
theorem c7_record_sent_iff_confirmed_witness :
    (emailsSend envOk reqBasic dbOneAcct).recordSentCalls = 1 ∧
    (emailsSend envFail reqBasic dbOneAcct).recordSentCalls = 0 := by
  constructor
  · exact (c7_record_sent_iff_confirmed envOk reqBasic dbOneAcct).2.1.mpr
      ⟨1, 1, by decide⟩
  · have hiff := (c7_record_sent_iff_confirmed envFail reqBasic dbOneAcct).2.1
    have hle := (c7_record_sent_iff_confirmed envFail reqBasic dbOneAcct).1
    have hout : (emailsSend envFail reqBasic dbOneAcct).outcome
        = .ok false 1 1 := by decide
    have hne : (emailsSend envFail reqBasic dbOneAcct).recordSentCalls ≠ 1 := by
      intro h1
      obtain ⟨mid, tid, h⟩ := hiff.mp h1
      rw [hout] at h
      simp at h
    omega

/-- C5: when the caller supplies no text body, the route derives one by
stripping tags from the sanitized HTML and trimming; if the derived text is
shorter than 10 characters the request is rejected with
`InsufficientContent` before any Message row is persisted; in particular
the §8 scenario — empty `textBody`, `htmlBody = "<p>hi</p>"` — derives
`"hi"` (length 2) and is rejected with the database untouched. -/
theorem c5_insufficient_content_gate
    (env : SendEnv) (req : SendRequest) (db : DB) (acct : Account)
    (sc : Nat) (iss : List String)
    (hinv : invalidRecipientList env req = [])
    (hacct : resolveSendingAccount env req db = some acct)
    (hrate : env.rateAllowed = true)
    (hspam : env.checkSpamScore req.subject req.htmlBody req.textBody
      (fromEmailOf env acct) = (sc, iss))
    (h7 : sc < 7)
    (htb : req.textBody = "") :
    finalTextBodyOf env req =
      jsTrim (stripTags (env.sanitizeForEmail req.htmlBody)) ∧
    ((finalTextBodyOf env req).length < 10 →
      (emailsSend env req db).outcome = .insufficientContent ∧
      (emailsSend env req db).db = db ∧
      (emailsSend env req db).transportCalls = 0 ∧
      (emailsSend env req db).recordSentCalls = 0) ∧
    (finalTextBodyOf envScenario reqHi = "hi" ∧
      (emailsSend envScenario reqHi dbOneAcct).outcome
        = .insufficientContent ∧
      (emailsSend envScenario reqHi dbOneAcct).db = dbOneAcct) := by
  refine ⟨?_, ?_, by decide, by decide, by decide⟩
  · simp [finalTextBodyOf, strOr, htb]
  · intro hlen
    have hT : finalTextBodyOf env req = "" ∨
        (finalTextBodyOf env req).length < 10 := Or.inr hlen
    simp [emailsSend, hinv, hacct, hrate, hspam, not_le.mpr h7, hT]

/-- C5 witness: the theorem applied to the §8 scenario itself. -/
theorem c5_insufficient_content_gate_witness :
    finalTextBodyOf envScenario reqHi =
      jsTrim (stripTags (envScenario.sanitizeForEmail reqHi.htmlBody)) ∧
    (emailsSend envScenario reqHi dbOneAcct).outcome
      = .insufficientContent := by
  have h := c5_insufficient_content_gate envScenario reqHi dbOneAcct acctSmtp
    0 [] (by decide) (by decide) rfl rfl (by decide) rfl
  exact ⟨h.1, (h.2.1 (by decide)).1⟩

/-- Looking up a thread id is unaffected by the route's final thread
update (the update changes `lastMessageAt`/`messageCount` but never
`id`). -/
theorem find?_comp_bump (tid now : Nat) (l : List Thread) :
    List.find? ((fun t : Thread => decide (t.id = tid)) ∘ fun t =>
      if t.id = tid then
        { t with lastMessageAt := now, messageCount := t.messageCount + 1 }
      else t) l
    = List.find? (fun t : Thread => decide (t.id = tid)) l := by
  congr 1
  funext t
  by_cases h : t.id = tid <;> simp [Function.comp, h]

/-- C3 amended: only the outbound send insert updates the owning Thread's
counters — once the `/emails/send` route reaches the persistence step it
increments the thread's `messageCount` by exactly one (creating the thread
at count 1 when the request names none) and bumps `lastMessageAt`, in step
with the one Message row it inserts; the inbound sync insert persists the
Message without touching any thread's counters (a thread created by sync
starts and stays at `messageCount = 0`). -/
theorem c3_message_count_incremented_only_by_send :
    (∀ (env : SendEnv) (req : SendRequest) (db : DB) (acct : Account)
      (sc : Nat) (iss : List String) (tid c : Nat),
      invalidRecipientList env req = [] →
      resolveSendingAccount env req db = some acct →
      env.rateAllowed = true →
      env.checkSpamScore req.subject req.htmlBody req.textBody
        (fromEmailOf env acct) = (sc, iss) →
      sc < 7 →
      ¬(finalTextBodyOf env req = "" ∨
        (finalTextBodyOf env req).length < 10) →
      req.threadId = some tid →
      db.threadCount tid = some c →
      (emailsSend env req db).db.threadCount tid = some (c + 1) ∧
      (emailsSend env req db).db.threadLast tid = some env.now ∧
      (emailsSend env req db).db.messagesInThread tid =
        db.messagesInThread tid + 1) ∧
    (∀ (env : SendEnv) (req : SendRequest) (db : DB) (acct : Account)
      (sc : Nat) (iss : List String),
      invalidRecipientList env req = [] →
      resolveSendingAccount env req db = some acct →
      env.rateAllowed = true →
      env.checkSpamScore req.subject req.htmlBody req.textBody
        (fromEmailOf env acct) = (sc, iss) →
      sc < 7 →
      ¬(finalTextBodyOf env req = "" ∨
        (finalTextBodyOf env req).length < 10) →
      req.threadId = none →
      db.threadCount db.nextThreadId = none →
      (emailsSend env req db).db.threadCount db.nextThreadId = some 1 ∧
      (emailsSend env req db).db.messagesInThread db.nextThreadId =
        db.messagesInThread db.nextThreadId + 1) ∧
    (∀ (msg : ExternalMessage) (account : Account) (userId : String)
      (db : DB) (t : Thread),
      t ∈ (saveMessageWithRetry msg account userId db).2.threads →
      t ∈ db.threads ∨ t.messageCount = 0) := by
  refine ⟨?_, ?_, ?_⟩
  · intro env req db acct sc iss tid c hinv hacct hrate hspam h7 htext hreq
      hcount
    unfold DB.threadCount at hcount
    obtain ⟨t0, hfind, hc0⟩ := Option.map_eq_some'.mp hcount
    have hid : t0.id = tid := by
      have := List.find?_some hfind
      simpa using this
    simp [emailsSend, hinv, hacct, hrate, hspam, not_le.mpr h7, htext, hreq,
      DB.threadCount, DB.threadLast, DB.messagesInThread,
      find?_comp_bump, hfind, hid, hc0, List.filter_append]
  · intro env req db acct sc iss hinv hacct hrate hspam h7 htext hreq hfresh
    unfold DB.threadCount at hfresh
    have hfind : db.threads.find? (fun t => t.id = db.nextThreadId)
        = none := Option.map_eq_none'.mp hfresh
    simp [emailsSend, hinv, hacct, hrate, hspam, not_le.mpr h7, htext, hreq,
      DB.threadCount, DB.messagesInThread, find?_comp_bump, hfind,
      List.filter_append]
  · intro msg account userId db t hmem
    unfold saveMessageWithRetry at hmem
    split at hmem
    · exact Or.inl hmem
    · split at hmem
      · rename_i s hs
        rcases hF : db.threads.find?
            (fun th => th.externalThreadId = some s) with _ | t0
        all_goals rw [hF] at hmem
        · simp at hmem
          rcases hmem with h | h
          · exact Or.inl h
          · subst h
            exact Or.inr rfl
        · simp at hmem
          exact Or.inl hmem
      · simp at hmem
        rcases hmem with h | h
        · exact Or.inl h
        · subst h
          exact Or.inr rfl

/-- C3 amended witness: sending `reqBasic` (no thread named) creates
thread 1 at `messageCount = 1` with one message referencing it, and an
inbound sync insert leaves every thread at count 0 or untouched. -/
theorem c3_message_count_witness :
    ((emailsSend envOk reqBasic dbOneAcct).db.threadCount 1 = some 1 ∧
     (emailsSend envOk reqBasic dbOneAcct).db.messagesInThread 1 =
       dbOneAcct.messagesInThread 1 + 1) ∧
    (∀ t ∈ dbAfterM1.threads, t ∈ dbEmpty.threads ∨ t.messageCount = 0) := by
  constructor
  · have h := (c3_message_count_incremented_only_by_send.2.1) envOk reqBasic
      dbOneAcct acctSmtp 0 [] (by decide) (by decide) rfl rfl (by decide)
      (by decide) rfl (by decide)
    exact h
  · intro t ht
    exact c3_message_count_incremented_only_by_send.2.2 msgT1a acctSmtp "u1"
      dbEmpty t ht

/-! Helper lemmas about the `orderBy`-maximum fold of `getDefaultAccount`. -/

theorem keyLt_irrefl (x : Nat × Nat) : ¬ keyLt x x := by
  unfold keyLt
  omega

theorem keyLt_trans {x y z : Nat × Nat} (h1 : keyLt x y) (h2 : keyLt y z) :
    keyLt x z := by
  unfold keyLt at *
  omega

theorem keyLt_trans_not {x y z : Nat × Nat} (h1 : keyLt x y)
    (h2 : ¬ keyLt z y) : keyLt x z := by
  unfold keyLt at *
  omega

theorem pickBetter_foldl_isSome (l : List Account) (b : Account) :
    (l.foldl pickBetter (some b)).isSome = true := by
  induction l generalizing b with
  | nil => rfl
  | cons hd tl ih =>
      by_cases h : keyLt (accountKey b) (accountKey hd) <;>
        simp [pickBetter, h, ih]

theorem pickBetter_foldl_mem (l : List Account) (acc : Option Account)
    (a : Account) (h : l.foldl pickBetter acc = some a) :
    acc = some a ∨ a ∈ l := by
  induction l generalizing acc with
  | nil => exact Or.inl h
  | cons hd tl ih =>
      rcases ih (pickBetter acc hd) h with h1 | h1
      · cases acc with
        | none =>
            simp [pickBetter] at h1
            exact Or.inr (by simp [h1])
        | some b =>
            by_cases hk : keyLt (accountKey b) (accountKey hd)
            · simp [pickBetter, hk] at h1
              exact Or.inr (by simp [h1])
            · simp [pickBetter, hk] at h1
              exact Or.inl (by simp [h1])
      · exact Or.inr (List.mem_cons_of_mem _ h1)

theorem pickBetter_foldl_max (l : List Account) (acc : Option Account)
    (a : Account) (h : l.foldl pickBetter acc = some a) :
    (∀ b, acc = some b → ¬ keyLt (accountKey a) (accountKey b)) ∧
    ∀ b ∈ l, ¬ keyLt (accountKey a) (accountKey b) := by
  induction l generalizing acc with
  | nil =>
      simp only [List.foldl_nil] at h
      refine ⟨?_, by simp⟩
      intro b hb
      rw [h] at hb
      injection hb with hab
      subst hab
      exact keyLt_irrefl _
  | cons hd tl ih =>
      simp only [List.foldl_cons] at h
      obtain ⟨ihAcc, ihTl⟩ := ih (pickBetter acc hd) h
      refine ⟨?_, ?_⟩
      · intro b hb
        subst hb
        by_cases hk : keyLt (accountKey b) (accountKey hd)
        · intro hab
          exact ihAcc hd (by simp [pickBetter, hk]) (keyLt_trans hab hk)
        · exact ihAcc b (by simp [pickBetter, hk])
      · intro b hb
        rcases List.mem_cons.mp hb with heq | hbtl
        · subst heq
          cases acc with
          | none => exact ihAcc b (by simp [pickBetter])
          | some c =>
              by_cases hk : keyLt (accountKey c) (accountKey b)
              · exact ihAcc b (by simp [pickBetter, hk])
              · intro hab
                exact ihAcc c (by simp [pickBetter, hk])
                  (keyLt_trans_not hab hk)
        · exact ihTl b hbtl

/-- C10: `getDefaultAccount` returns `none` (triggering the route's
`NoAccountConfigured` failure) exactly when the user owns no email
accounts at all; when it returns an account, that account belongs to the
user and is maximal for `orderBy [desc(isDefault), desc(createdAt)]` — no
`isActive` (or `isDefault`) filter is applied, so a user whose only
account is inactive still resolves it as the default, and the send then
fails inside `sendFromAccount` with `'Account not found or inactive'`
while the route still persists the message (`ok false`). -/
theorem c10_default_account_ignores_isActive :
    (∀ (userId : String) (db : DB),
      getDefaultAccount userId db = none ↔
        db.accounts.filter (fun a => a.userId = userId) = []) ∧
    (∀ (userId : String) (db : DB) (a : Account),
      getDefaultAccount userId db = some a →
      a.userId = userId ∧ a ∈ db.accounts ∧
      ∀ b ∈ db.accounts, b.userId = userId →
        ¬ keyLt (accountKey a) (accountKey b)) ∧
    (getDefaultAccount "u2" dbInactive = some acctInactive ∧
     acctInactive.isActive = false ∧
     sendFromAccount true "prov-1" acctInactive.id dbInactive =
       { success := false, messageId := none
         error := some "Account not found or inactive" } ∧
     (emailsSend envU2 reqNoAcct dbInactive).outcome = .ok false 1 1) := by
  refine ⟨?_, ?_, by decide, by decide, by decide, by decide⟩
  · intro userId db
    constructor
    · intro h
      by_contra hne
      obtain ⟨hd, tl, heq⟩ := List.exists_cons_of_ne_nil hne
      unfold getDefaultAccount at h
      rw [heq] at h
      have := pickBetter_foldl_isSome tl hd
      rw [show (tl.foldl pickBetter (some hd)) =
        ((hd :: tl).foldl pickBetter none) from rfl, h] at this
      cases this
    · intro h
      unfold getDefaultAccount
      rw [h]
      rfl
  · intro userId db a h
    unfold getDefaultAccount at h
    have hmem : a ∈ db.accounts.filter (fun x => x.userId = userId) := by
      rcases pickBetter_foldl_mem _ none a h with h1 | h1
      · cases h1
      · exact h1
    have hmf := List.mem_filter.mp hmem
    refine ⟨by simpa using hmf.2, hmf.1, ?_⟩
    intro b hb hbu
    exact (pickBetter_foldl_max _ none a h).2 b
      (List.mem_filter.mpr ⟨hb, by simp [hbu]⟩)

/-- C10 witness: the theorem applied to `dbOneAcct` (one active account)
and, through its closed conjunct, to the inactive-account database. -/
theorem c10_default_account_witness :
    acctSmtp.userId = "u1" ∧ acctSmtp ∈ dbOneAcct.accounts ∧
    (∀ b ∈ dbOneAcct.accounts, b.userId = "u1" →
      ¬ keyLt (accountKey acctSmtp) (accountKey b)) := by
  exact c10_default_account_ignores_isActive.2.1 "u1" dbOneAcct acctSmtp
    (by decide)

end OneHub
